/-
Verification of the TDX stock-screening script (src/通达信.py) against its
natural-language specification.

Shallow embedding conventions:
* Bytes are modelled as `List Nat` (each entry one byte value).
* Python `str(n)` for a nonnegative integer is modelled as the list of its
  decimal digits (`pyStr`).  On such digit lists, Python string comparison
  (used by the script for every trade-date comparison and for
  `sort_values("trade_date")`) is exactly the lexicographic order on
  `List Nat`, because the code points of the digit characters are ordered
  like the digits themselves.
* Prices are exact rationals: the decoder divides `uint32` fixed-point
  fields by 100, which is exact; IEEE-754 `float32` payloads are decoded
  exactly into `F32Val` (every finite float32 is a rational).
* A Python exception that would propagate out of the per-instrument loop is
  modelled as `Except.error`; exclusion of an instrument is `Except.ok`.
-/
import Mathlib

set_option maxRecDepth 4000

deriving instance DecidableEq for Except

/-! ## Decimal digit strings (image of Python str on nonnegative ints) -/

/-- Auxiliary digit extractor with fuel; `fuel = 10` suffices for any
`uint32` value (at most 10 decimal digits). -/
def pyStrAux : Nat → Nat → List Nat
  | 0, _ => []
  | fuel + 1, n => if n < 10 then [n] else pyStrAux fuel (n / 10) ++ [n % 10]

/-- The decimal digit list of `n`, most significant digit first; models the
Python string `str(n)` for `n < 10^10` (all dates and uint32 fields). -/
def pyStr (n : Nat) : List Nat := pyStrAux 10 n

/-! ## Byte-level decoding helpers -/

/-- Byte `i` of a byte list (out-of-range reads as 0; all real accesses in
this development are in range). -/
def byteAt (bs : List Nat) (i : Nat) : Nat := bs.getD i 0

/-- Little-endian unsigned 32-bit integer at offset `off`, as produced by
Python `struct.unpack("I", record[off:off+4])`. -/
def u32at (bs : List Nat) (off : Nat) : Nat :=
  byteAt bs off + 256 * byteAt bs (off + 1) + 65536 * byteAt bs (off + 2) +
    16777216 * byteAt bs (off + 3)

/-- Fuel-driven version of the fixed-width read loop
(`while True: record = f.read(w); if not record: break;
if len(record) != w: continue`): as long as at least `w` bytes remain, emit
the next `w`-byte chunk; a nonempty tail shorter than `w` is read once,
skipped by the `continue`, and the following read hits end of file.  The
fuel only bounds the number of loop iterations; `fuel = bs.length` is
always enough because each emitting iteration consumes `w ≥ 1` bytes. -/
def readChunksAux (w : Nat) : Nat → List Nat → List (List Nat)
  | 0, _ => []
  | fuel + 1, bs =>
    if 0 < w ∧ w ≤ bs.length then bs.take w :: readChunksAux w fuel (bs.drop w)
    else []

/-- All complete leading `w`-byte chunks of a byte stream, in input order. -/
def readChunks (w : Nat) (bs : List Nat) : List (List Nat) :=
  readChunksAux w bs.length bs

/-! ## Daily-bar decoder (`parse_tdx_day_file`, lines 46-71) -/

/-- One decoded daily bar.  Field names follow the DataFrame columns; the
price fields (`÷100`) are exact rationals, `trade_date` is the digit list
of the YYYYMMDD integer (the code stores it as a string). -/
structure DayRecord where
  trade_date : List Nat
  open_p : ℚ
  high : ℚ
  low : ℚ
  close : ℚ
  vol : Nat
  amount : ℚ
deriving DecidableEq, Repr

/-- Decode one 32-byte daily-bar record (lines 59-66): date uint32 at 0,
open/high/low/close uint32 ÷ 100 at 4/8/12/16, volume uint32 at 20,
amount uint32 ÷ 100 at 24, bytes 28-31 reserved. -/
def decodeDayChunk (c : List Nat) : DayRecord :=
  { trade_date := pyStr (u32at c 0)
    open_p := (u32at c 4 : ℚ) / 100
    high := (u32at c 8 : ℚ) / 100
    low := (u32at c 12 : ℚ) / 100
    close := (u32at c 16 : ℚ) / 100
    vol := u32at c 20
    amount := (u32at c 24 : ℚ) / 100 }

/-- The daily-bar records in file order, before the DataFrame
post-processing (the `data` list built by the read loop, lines 50-66). -/
def rawDayRecords (bs : List Nat) : List DayRecord :=
  (readChunks 32 bs).map decodeDayChunk

/-- Date-string order on day records: pandas
`sort_values("trade_date")` compares the date strings, which on digit
lists is the lexicographic `List Nat` order. -/
def dateLe (a b : DayRecord) : Prop := a.trade_date ≤ b.trade_date

instance : DecidableRel dateLe :=
  fun a b => inferInstanceAs (Decidable (a.trade_date ≤ b.trade_date))

instance : IsTotal DayRecord dateLe :=
  ⟨fun a b => le_total a.trade_date b.trade_date⟩

instance : IsTrans DayRecord dateLe :=
  ⟨fun _ _ _ hab hbc => le_trans hab hbc⟩

/-- Lines 69-71: build the DataFrame and return
`df.sort_values("trade_date").reset_index(drop=True)`.  Pandas sorts by the
date string; its default quicksort leaves the relative order of equal dates
unspecified, so we model the sort with a concrete (insertion) sort and only
ever prove tie-order-independent facts (sortedness and permutation). -/
def parse_tdx_day_file (bs : List Nat) : List DayRecord :=
  List.insertionSort dateLe (rawDayRecords bs)

/-! ## Concentration decoder (`parse_tdx_chip_data`, lines 94-118) -/

/-- Exact value of an IEEE-754 binary32 bit pattern: every finite float32
is an exact rational; infinities and NaNs are kept symbolic so the Python
comparison semantics (`not x`, `x < threshold`) can be modelled exactly. -/
inductive F32Val where
  | finite (q : ℚ)
  | inf
  | neginf
  | nan
deriving DecidableEq, Repr

/-- Decode a `float32` bit pattern exactly, as `struct.unpack("f", ...)`
produces it: sign bit 31, exponent bits 23-30, fraction bits 0-22.
Normal values are `±(2^23 + frac) · 2^(ex-150)`, subnormals
`±frac · 2^(-149)` (both zeros decode to the rational 0). -/
def decodeF32 (bits : Nat) : F32Val :=
  let b := bits % 4294967296
  let sign := b / 2147483648
  let ex := (b / 8388608) % 256
  let frac := b % 8388608
  if ex = 255 then
    if frac = 0 then (if sign = 0 then F32Val.inf else F32Val.neginf)
    else F32Val.nan
  else
    let mag : ℚ :=
      if ex = 0 then (frac : ℚ) / 2 ^ 149
      else ((2 ^ 23 + frac : Nat) : ℚ) * 2 ^ ex / 2 ^ 150
    F32Val.finite (if sign = 0 then mag else -mag)

/-- One decoded concentration record: date uint32 at offset 0, the 70%
concentration float32 at offset 24 (lines 110-112). -/
structure ChipRecord where
  trade_date : List Nat
  concentration_70 : F32Val
deriving DecidableEq, Repr

/-- Decode one 48-byte concentration record. -/
def decodeChipChunk (c : List Nat) : ChipRecord :=
  { trade_date := pyStr (u32at c 0), concentration_70 := decodeF32 (u32at c 24) }

/-- The concentration records in file order (the chip read loop,
lines 101-112; this decoder does not sort). -/
def chipRecords (bs : List Nat) : List ChipRecord :=
  (readChunks 48 bs).map decodeChipChunk

/-- Lines 94-118: if the chip file does not exist, return `None`
(modelled: the argument is `none`); otherwise decode the stream, select the
rows whose date equals the target date and return the first concentration
value, or `None` when no row matches. -/
def parse_tdx_chip_data (chipFile : Option (List Nat)) (target_date : List Nat) :
    Option F32Val :=
  match chipFile with
  | none => none
  | some bs =>
    match (chipRecords bs).filter (fun r => r.trade_date = target_date) with
    | [] => none
    | r :: _ => some r.concentration_70

/-! ## Indicator computations -/

/-- The value of the pandas rolling mean
`close.rolling(window=period, min_periods=period).mean()` at row index `i`:
defined exactly when `i + 1 ≥ period` (so the window of the `period` rows
ending at `i` is complete), and then equal to the arithmetic mean of the
closes at indices `[i+1-period, i]`; `NaN` (absent) otherwise. -/
def rollingAt (closes : List ℚ) (period i : Nat) : Option ℚ :=
  if period ≤ i + 1 then
    some ((((closes.take (i + 1)).drop (i + 1 - period)).sum) / period)
  else none

/-- Lines 88-92 (`calculate_ma`): the moving-average column for one period,
one entry per row of the series. -/
def calculate_ma (closes : List ℚ) (period : Nat) : List (Option ℚ) :=
  (List.range closes.length).map (rollingAt closes period)

/-- The last `n` entries of a list (pandas `.tail(n)`). -/
def tailN (xs : List DayRecord) (n : Nat) : List DayRecord :=
  xs.drop (xs.length - n)

/-- First row of the sub-frame with the given trade date
(`df[df["trade_date"] == d].iloc[0]`, which raises `IndexError` when the
sub-frame is empty — hence the `Option`). -/
def firstRowWith (df : List DayRecord) (d : List Nat) : Option DayRecord :=
  (df.filter (fun r => r.trade_date = d)).head?

/-- The value returned by `check_box_break`: the insufficient-data branch
(line 126) returns a 2-tuple `(False, 0.0)`, the normal branch (line 132) a
3-tuple `(is_break, box_upper, break_ratio)`.  The two arities are kept
apart because the caller (line 238) unpacks three values. -/
inductive BoxBreakResult where
  | pair (is_break : Bool) (pct : ℚ)
  | triple (is_break : Bool) (upper : ℚ) (pct : ℚ)
deriving DecidableEq, Repr

/-- Lines 121-132 (`check_box_break`): take the rows dated strictly before
`target_date`, keep the last `box_days` of them; with fewer than `box_days`
rows return the 2-tuple `(False, 0.0)`; otherwise `box_upper` is the
maximum close of the window, the target close is read with `iloc[0]`
(raising `IndexError` when the target row is absent, modelled as
`.error`), the bar breaks when `target_close > box_upper * 1.005`, and the
ratio is `(target_close / box_upper - 1) * 100` on a break, else `0.0`.
When `box_days = 0` the window is empty and pandas produces a `NaN` upper
bound whose comparisons are all false; we model that corner as
`triple false 0 0` (no claim touches `box_days = 0`). -/
def check_box_break (df : List DayRecord) (target_date : List Nat) (box_days : Nat) :
    Except String BoxBreakResult :=
  let df_target := tailN (df.filter (fun r => decide (r.trade_date < target_date))) box_days
  if df_target.length < box_days then Except.ok (BoxBreakResult.pair false 0)
  else
    match firstRowWith df target_date with
    | none => Except.error "IndexError"
    | some trow =>
      match (df_target.map (fun r => r.close)).max? with
      | none => Except.ok (BoxBreakResult.triple false 0 0)
      | some box_upper =>
        let is_break := decide (box_upper * 1.005 < trow.close)
        Except.ok (BoxBreakResult.triple is_break box_upper
          (if box_upper * 1.005 < trow.close then (trow.close / box_upper - 1) * 100 else 0))

/-- Comparison `target_close > ma` for one moving-average cell; a missing
(`NaN`) cell compares false, as in Python. -/
def gtOptMa (c : ℚ) : Option ℚ → Bool
  | some v => decide (v < c)
  | none => false

/-- Lines 134-147 (`check_ma_break`): empty target row gives `False`;
otherwise compare the target close against each requested moving-average
value at the target row, combining with `all` / `any` according to
`break_type`, any other mode giving `False`. -/
def check_ma_break (df : List DayRecord) (target_date : List Nat)
    (ma_list : List Nat) (break_type : String) : Bool :=
  match List.findIdx? (fun r => r.trade_date = target_date) df with
  | none => false
  | some tIdx =>
    match df[tIdx]? with
    | none => false
    | some trow =>
      let closes := df.map (fun r => r.close)
      let mas := ma_list.map (fun p => rollingAt closes p tIdx)
      if break_type = "all" then mas.all (gtOptMa trow.close)
      else if break_type = "any" then mas.any (gtOptMa trow.close)
      else false

/-- Lines 149-155 (`get_prev_trade_date`): `None` when the target date is
not in the series or is its first entry, otherwise the date immediately
before it in the (sorted) series. -/
def get_prev_trade_date (df : List DayRecord) (target_date : List Nat) :
    Option (List Nat) :=
  let dates := df.map (fun r => r.trade_date)
  match List.findIdx? (fun d => d = target_date) dates with
  | none => none
  | some 0 => none
  | some (i + 1) => dates[i]?

/-! ## Screening pipeline (`stock_selection_tdx_auto`, lines 158-274) -/

/-- The instrument attributes used by the pipeline, from the external
basic-info table (code, name, circulating shares in 10,000-share units,
circulating market cap in 100-million units, lines 73-86). -/
structure Profile where
  ts_code : String
  name : String
  circulating_share : ℚ
  circulating_market_cap : ℚ
deriving DecidableEq, Repr

/-- One instrument as the pipeline sees it: its profile row plus the raw
bytes of its daily-bar file (`none` when the `glob` at line 189 finds no
file) and of its chip file (`none` when absent, line 98). -/
structure InstrInput where
  profile : Profile
  dayFile : Option (List Nat)
  chipFile : Option (List Nat)
deriving DecidableEq, Repr

/-- The configuration surface of the scan (the module-level constants,
lines 10-17), passed explicitly. -/
structure Config where
  target_date : List Nat
  box_days : Nat
  growth_threshold : ℚ
  turnover_threshold : ℚ
  cap_threshold : ℚ
  concentration_threshold : ℚ
  ma_list : List Nat
  break_ma_type : String

/-- Line 220, kept literally: `(target_vol * 100) / circulating_share`,
with the volume in lots and the share count in 10,000-share units. -/
def turnover_rate (target_vol : Nat) (circulating_share : ℚ) : ℚ :=
  ((target_vol : ℚ) * 100) / circulating_share

/-- The volume-growth stage test (lines 224-226): pass when
`target_vol / prev_vol < growth_threshold` is false.  With `prev_vol = 0`
numpy division yields `inf` (or `nan` for `0/0`), and either compares
false against the threshold, so the stage passes; that corner is the
explicit first branch. -/
def volumeGrowthPass (target_vol prev_vol : Nat) (thr : ℚ) : Bool :=
  if prev_vol = 0 then true
  else decide (¬ ((target_vol : ℚ) / (prev_vol : ℚ) < thr))

/-- The turnover stage test (lines 228-230): pass when
`turnover_rate < turnover_threshold` is false.  With a zero share count the
numpy quotient is `inf`/`nan` and the comparison is false, so the stage
passes; that corner is the explicit first branch. -/
def turnoverPass (target_vol : Nat) (circulating_share thr : ℚ) : Bool :=
  if circulating_share = 0 then true
  else decide (¬ (turnover_rate target_vol circulating_share < thr))

/-- The concentration stage test (lines 233-235):
`if not chip_concentration or chip_concentration < CHIP_CONCENTRATION:
continue`.  `None` and the float `0.0` are falsy, hence excluded before the
threshold comparison; `nan` and `+inf` are truthy and compare false against
the threshold, hence pass; `-inf` is truthy but below the threshold. -/
def chipPred (thr : ℚ) : Option F32Val → Bool
  | none => false
  | some (F32Val.finite q) => decide (¬ q = 0 ∧ ¬ q < thr)
  | some F32Val.nan => true
  | some F32Val.inf => true
  | some F32Val.neginf => false

/-- Lines 184-260, the per-instrument body of the scan loop.
`Except.error` models a Python exception escaping the loop (aborting the
whole scan); `Except.ok none` models `continue` (instrument excluded);
`Except.ok (some code)` models appending the instrument to
`final_selected` (the remaining dictionary entries are rounded
presentations of quantities already computed here).  Note the box-breakout
stage: when `check_box_break` returns its insufficient-data 2-tuple, the
3-name unpacking at line 238 raises `ValueError`. -/
def processInstrument (cfg : Config) (inp : InstrInput) : Except String (Option String) :=
  match inp.dayFile with
  | none => Except.ok none
  | some bs =>
    let day_df := parse_tdx_day_file bs
    let dates := day_df.map (fun r => r.trade_date)
    if cfg.target_date ∈ dates then
      match get_prev_trade_date day_df cfg.target_date with
      | none => Except.ok none
      | some prev_date =>
        if prev_date ∈ dates then
          let closes := day_df.map (fun r => r.close)
          match List.findIdx? (fun r => r.trade_date = cfg.target_date) day_df with
          | none => Except.error "IndexError"
          | some tIdx =>
            if cfg.ma_list.any (fun p => (rollingAt closes p tIdx).isNone) then Except.ok none
            else
              match firstRowWith day_df cfg.target_date, firstRowWith day_df prev_date with
              | some trow, some prow =>
                if volumeGrowthPass trow.vol prow.vol cfg.growth_threshold = false then
                  Except.ok none
                else if turnoverPass trow.vol inp.profile.circulating_share
                    cfg.turnover_threshold = false then Except.ok none
                else if chipPred cfg.concentration_threshold
                    (parse_tdx_chip_data inp.chipFile cfg.target_date) = false then
                  Except.ok none
                else
                  match check_box_break day_df cfg.target_date cfg.box_days with
                  | Except.error e => Except.error e
                  | Except.ok (BoxBreakResult.pair _ _) => Except.error "ValueError"
                  | Except.ok (BoxBreakResult.triple is_box_break _ _) =>
                    if is_box_break = false then Except.ok none
                    else if check_ma_break day_df cfg.target_date cfg.ma_list
                        cfg.break_ma_type = false then Except.ok none
                    else Except.ok (some inp.profile.ts_code)
              | _, _ => Except.error "IndexError"
        else Except.ok none
    else Except.ok none

/-- The scan over the universe (lines 171-260): the static market-cap
filter selects the candidates, then each is processed in order; an
exception from any instrument propagates and aborts the scan. -/
def runScan (cfg : Config) : List InstrInput → Except String (List String)
  | [] => Except.ok []
  | inp :: rest =>
    if inp.profile.circulating_market_cap ≤ cfg.cap_threshold then
      match processInstrument cfg inp with
      | Except.error e => Except.error e
      | Except.ok none => runScan cfg rest
      | Except.ok (some c) =>
        match runScan cfg rest with
        | Except.error e => Except.error e
        | Except.ok cs => Except.ok (c :: cs)
    else runScan cfg rest

/-- Lines 158-274: the whole run.  Loading the basic-info repository is
external; its failure (lines 169-179, re-raised from line 77) ends the run
with an error message and no scan at all, which we model as the
distinguished `Except.error`. -/
def stock_selection_tdx_auto (repo : Option (List InstrInput)) (cfg : Config) :
    Except String (List String) :=
  match repo with
  | none => Except.error "FileNotFoundError"
  | some univ => runScan cfg univ

/-! ## The eight filter stages as standalone predicates

For the stage-permutation claim the eight stages of the pipeline are
reified as standalone functions of the same instrument input, each
transcribing the corresponding code fragment as it would run on its own:
a stage whose fragment would raise (missing day file at line 192, `iloc[0]`
on an empty selection, the 2-tuple unpacking at line 238) returns
`Except.error`. -/

/-- Day-file access shared by stages: with no matching file, `day_file[0]`
at line 192 raises `IndexError`. -/
def getDayDf (inp : InstrInput) : Except String (List DayRecord) :=
  match inp.dayFile with
  | none => Except.error "IndexError"
  | some bs => Except.ok (parse_tdx_day_file bs)

/-- Stage 1: static market-cap filter (line 171). -/
def stage_cap (cfg : Config) (inp : InstrInput) : Except String Bool :=
  Except.ok (decide (inp.profile.circulating_market_cap ≤ cfg.cap_threshold))

/-- Stage 2: series availability (lines 189-201): a day file exists, the
target date occurs in it, and a previous trading date precedes it. -/
def stage_series (cfg : Config) (inp : InstrInput) : Except String Bool :=
  match inp.dayFile with
  | none => Except.ok false
  | some bs =>
    let df := parse_tdx_day_file bs
    let dates := df.map (fun r => r.trade_date)
    Except.ok (decide (cfg.target_date ∈ dates ∧
      (get_prev_trade_date df cfg.target_date).isSome ∧
      (∀ p ∈ get_prev_trade_date df cfg.target_date, p ∈ dates)))

/-- Stage 3: moving-average completeness (lines 204-208). -/
def stage_ma_complete (cfg : Config) (inp : InstrInput) : Except String Bool :=
  match getDayDf inp with
  | Except.error e => Except.error e
  | Except.ok df =>
    match List.findIdx? (fun r => r.trade_date = cfg.target_date) df with
    | none => Except.error "IndexError"
    | some tIdx =>
      let closes := df.map (fun r => r.close)
      Except.ok (!(cfg.ma_list.any (fun p => (rollingAt closes p tIdx).isNone)))

/-- Stage 4: volume growth (lines 213, 224-226). -/
def stage_growth (cfg : Config) (inp : InstrInput) : Except String Bool :=
  match getDayDf inp with
  | Except.error e => Except.error e
  | Except.ok df =>
    match firstRowWith df cfg.target_date with
    | none => Except.error "IndexError"
    | some trow =>
      match get_prev_trade_date df cfg.target_date with
      | none => Except.error "IndexError"
      | some prev_date =>
        match firstRowWith df prev_date with
        | none => Except.error "IndexError"
        | some prow => Except.ok (volumeGrowthPass trow.vol prow.vol cfg.growth_threshold)

/-- Stage 5: turnover rate (lines 218-220, 228-230). -/
def stage_turnover (cfg : Config) (inp : InstrInput) : Except String Bool :=
  match getDayDf inp with
  | Except.error e => Except.error e
  | Except.ok df =>
    match firstRowWith df cfg.target_date with
    | none => Except.error "IndexError"
    | some trow =>
      Except.ok (turnoverPass trow.vol inp.profile.circulating_share cfg.turnover_threshold)

/-- Stage 6: concentration (lines 233-235); needs no day data. -/
def stage_chip (cfg : Config) (inp : InstrInput) : Except String Bool :=
  Except.ok (chipPred cfg.concentration_threshold
    (parse_tdx_chip_data inp.chipFile cfg.target_date))

/-- Stage 7: box breakout (lines 238-240), including the 3-name unpacking
of the `check_box_break` result. -/
def stage_box (cfg : Config) (inp : InstrInput) : Except String Bool :=
  match getDayDf inp with
  | Except.error e => Except.error e
  | Except.ok df =>
    match check_box_break df cfg.target_date cfg.box_days with
    | Except.error e => Except.error e
    | Except.ok (BoxBreakResult.pair _ _) => Except.error "ValueError"
    | Except.ok (BoxBreakResult.triple b _ _) => Except.ok b

/-- Stage 8: moving-average breakout (lines 243-244). -/
def stage_ma_break (cfg : Config) (inp : InstrInput) : Except String Bool :=
  match getDayDf inp with
  | Except.error e => Except.error e
  | Except.ok df =>
    Except.ok (check_ma_break df cfg.target_date cfg.ma_list cfg.break_ma_type)

/-- The eight stages indexed in the specified order 1-8. -/
def stageFn : Fin 8 → Config → InstrInput → Except String Bool
  | 0 => stage_cap
  | 1 => stage_series
  | 2 => stage_ma_complete
  | 3 => stage_growth
  | 4 => stage_turnover
  | 5 => stage_chip
  | 6 => stage_box
  | 7 => stage_ma_break

/-- Run a list of stages with the short-circuit discipline of the loop
body: the first failing stage excludes the instrument (`ok false`), an
exception aborts (`error`), and an instrument passing every stage is a
member of the final result collection (`ok true`). -/
def runChain (order : List (Fin 8)) (cfg : Config) (inp : InstrInput) :
    Except String Bool :=
  match order with
  | [] => Except.ok true
  | s :: rest =>
    match stageFn s cfg inp with
    | Except.error e => Except.error e
    | Except.ok false => Except.ok false
    | Except.ok true => runChain rest cfg inp

/-- The stage order used by the code. -/
def specifiedOrder : List (Fin 8) := [0, 1, 2, 3, 4, 5, 6, 7]

/-! ## Encoders (for the round-trip property)

The repository contains only decoders; the encoder side of the round-trip
property is modelled from the spec. -/

/-- Modelled from the spec: little-endian serialization of a uint32 value
(the inverse of the `struct.unpack("I", ...)` reads); the repository has no
encoder. -/
def u32le (x : Nat) : List Nat :=
  [x % 256, x / 256 % 256, x / 65536 % 256, x / 16777216 % 256]

/-- Four reserved bytes of a daily-bar record (offset 28, ignored). -/
def reserved4 : List Nat := [0, 0, 0, 0]

/-- Twenty reserved bytes of a concentration record (ignored). -/
def reserved20 : List Nat := [0, 0, 0, 0, 0, 0, 0, 0, 0, 0, 0, 0, 0, 0, 0, 0, 0, 0, 0, 0]

/-- Modelled from the spec: encode a daily-bar record at the documented
offsets — date uint32 at 0, open/high/low/close as uint32 hundredths at
4/8/12/16, volume uint32 at 20, amount as uint32 hundredths at 24, four
reserved bytes at 28.  Price and amount fields are given as their scaled
integer (hundredths) values, which is what exactness to 0.01 means. -/
def encodeDayRecord (dt op hi lo cl vo am : Nat) : List Nat :=
  u32le dt ++ u32le op ++ u32le hi ++ u32le lo ++ u32le cl ++ u32le vo ++ u32le am ++ reserved4

/-- Modelled from the spec: encode a concentration record at the
documented offsets — date uint32 at 0, the concentration float32 at 24,
everything else reserved.  The float32 is given by its bit pattern, the
value `struct.pack("f", ...)` would store; decoding interprets the same
bits, so bit-level identity is exactness to float32 precision. -/
def encodeChipRecord (dt cbits : Nat) : List Nat :=
  u32le dt ++ reserved20 ++ u32le cbits ++ reserved20

/-! ## Concrete inputs used by counterexamples and witnesses -/

/-- A small configuration exercising the pipeline: 2-day box window, one
1-day moving average. -/
def cfgX : Config :=
  { target_date := pyStr 20250102, box_days := 2, growth_threshold := 1.5,
    turnover_threshold := 10, cap_threshold := 100, concentration_threshold := 70,
    ma_list := [1], break_ma_type := "all" }

/-- Day file with two bars (20250101 then 20250102); the target-day volume
doubles. -/
def dayBytesX : List Nat :=
  encodeDayRecord 20250101 1000 1010 990 1000 100 100000 ++
    encodeDayRecord 20250102 1010 1020 1000 1010 200 200000

/-- Chip file with one sample at the target date, value 75.0
(bit pattern 1117126656 = 0x42960000). -/
def chipBytesX : List Nat := encodeChipRecord 20250102 1117126656

/-- Profile within the cap threshold. -/
def profX : Profile :=
  { ts_code := "600001", name := "X", circulating_share := 1,
    circulating_market_cap := 50 }

/-- An instrument that passes every stage before the box stage but has
only one bar dated before the target — an insufficient 2-day window. -/
def inpX : InstrInput :=
  { profile := profX, dayFile := some dayBytesX, chipFile := some chipBytesX }

/-- Same day data but with flat volume (growth ratio 1 < 1.5), and no chip
file: fails the volume-growth stage in the specified order, still has an
insufficient box window. -/
def dayBytesY : List Nat :=
  encodeDayRecord 20250101 1000 1010 990 1000 100 100000 ++
    encodeDayRecord 20250102 1010 1020 1000 1010 100 100000

/-- Instrument for the stage-permutation counterexample. -/
def inpY : InstrInput :=
  { profile := profX, dayFile := some dayBytesY, chipFile := none }

/-- Day file with three bars, so the 2-day box window before the target
(20250103) is complete and every stage evaluates without raising. -/
def dayBytesZ : List Nat :=
  encodeDayRecord 20250101 1000 1010 990 1000 100 100000 ++
    encodeDayRecord 20250102 1010 1020 1000 1010 200 200000 ++
    encodeDayRecord 20250103 1020 1030 1010 1020 300 300000

/-- Configuration like `cfgX` but targeting 20250103. -/
def cfgZ : Config :=
  { target_date := pyStr 20250103, box_days := 2, growth_threshold := 1.5,
    turnover_threshold := 10, cap_threshold := 100, concentration_threshold := 70,
    ma_list := [1], break_ma_type := "all" }

/-- Instrument on which all eight stages are defined (no exceptions). -/
def inpZ : InstrInput :=
  { profile := profX, dayFile := some dayBytesZ, chipFile := none }

/-- Day file whose two records are dated out of input order (20250102
before 20250101): exhibits the decoder's sorting. -/
def dayBytesW : List Nat :=
  encodeDayRecord 20250102 1010 1020 1000 1010 200 200000 ++
    encodeDayRecord 20250101 1000 1010 990 1000 100 100000

/-! ## Chunking lemmas -/

/-- The fuel-driven read loop, given enough fuel, yields exactly the
complete leading chunks. -/
theorem readChunksAux_eq (w : Nat) (hw : 0 < w) :
    ∀ (fuel : Nat) (bs : List Nat), bs.length ≤ fuel →
      readChunksAux w fuel bs =
        (List.range (bs.length / w)).map (fun i => (bs.drop (w * i)).take w) := by
  intro fuel
  induction fuel with
  | zero =>
    intro bs hbs
    have h0 : bs.length = 0 := Nat.le_zero.mp hbs
    simp [readChunksAux, h0]
  | succ fuel ih =>
    intro bs hbs
    by_cases hle : w ≤ bs.length
    · have hdiv : bs.length / w = (bs.length - w) / w + 1 := by
        rw [Nat.div_eq]
        simp [hw, hle]
      have hdrop : (bs.drop w).length = bs.length - w := by simp
      have hrec := ih (bs.drop w) (by omega)
      rw [readChunksAux, if_pos ⟨hw, hle⟩, hrec, hdiv, hdrop, List.range_succ_eq_map]
      simp only [List.map_cons, List.map_map, List.cons.injEq]
      refine ⟨by simp, ?_⟩
      apply List.map_congr_left
      intro i _
      simp only [Function.comp_apply, List.drop_drop]
      have h : w * Nat.succ i = w + w * i := by
        simp [Nat.mul_succ, Nat.add_comm]
      rw [h]
    · have hlt : bs.length < w := Nat.lt_of_not_le hle
      rw [readChunksAux, if_neg (by omega), Nat.div_eq_of_lt hlt]
      simp
theorem readChunks_eq (w : Nat) (hw : 0 < w) (bs : List Nat) :
    readChunks w bs =
      (List.range (bs.length / w)).map (fun i => (bs.drop (w * i)).take w) :=
  readChunksAux_eq w hw bs.length bs le_rfl

/-- Claim C6: for every byte stream whose length is not an exact multiple
of the record width (32 bytes for daily bars, 48 for concentration),
decoding returns exactly the `length / width` complete leading records —
each one decoded from its complete leading chunk — silently dropping the
trailing partial chunk without terminating the decode. -/
theorem C6_truncated_tail_tolerance :
    (∀ bs : List Nat, bs.length % 32 ≠ 0 →
      (rawDayRecords bs).length = bs.length / 32 ∧
      rawDayRecords bs =
        (List.range (bs.length / 32)).map
          (fun i => decodeDayChunk ((bs.drop (32 * i)).take 32))) ∧
    (∀ bs : List Nat, bs.length % 48 ≠ 0 →
      (chipRecords bs).length = bs.length / 48 ∧
      chipRecords bs =
        (List.range (bs.length / 48)).map
          (fun i => decodeChipChunk ((bs.drop (48 * i)).take 48))) := by
  constructor
  · intro bs _
    constructor
    · simp [rawDayRecords, readChunks_eq 32 (by omega) bs]
    · simp [rawDayRecords, readChunks_eq 32 (by omega) bs]
  · intro bs _
    constructor
    · simp [chipRecords, readChunks_eq 48 (by omega) bs]
    · simp [chipRecords, readChunks_eq 48 (by omega) bs]

/-- Witness for C6 at the one-byte stream (length 1, a multiple of
neither width): one partial chunk, zero records. -/
theorem C6_truncated_tail_tolerance_witness :
    ([0] : List Nat).length % 32 ≠ 0 ∧ ([0] : List Nat).length % 48 ≠ 0 ∧
    ((rawDayRecords [0]).length = ([0] : List Nat).length / 32 ∧
      rawDayRecords [0] =
        (List.range (([0] : List Nat).length / 32)).map
          (fun i => decodeDayChunk (([0].drop (32 * i)).take 32))) ∧
    ((chipRecords [0]).length = ([0] : List Nat).length / 48 ∧
      chipRecords [0] =
        (List.range (([0] : List Nat).length / 48)).map
          (fun i => decodeChipChunk (([0].drop (48 * i)).take 48))) :=
  ⟨by decide, by decide,
    C6_truncated_tail_tolerance.1 [0] (by decide),
    C6_truncated_tail_tolerance.2 [0] (by decide)⟩

/-! ## Round-trip of the two record codecs -/

/-- Claim C7: encoding a record at the documented offsets and decoding it
returns the original values — date and volume exactly, the price and
amount fields as their exact hundredths (`÷100`, so exact to 0.01), the
concentration as the exact value of the stored float32 bit pattern. -/
theorem C7_record_roundtrip :
    (∀ dt op hi lo cl vo am : Nat,
      dt < 4294967296 → op < 4294967296 → hi < 4294967296 → lo < 4294967296 →
      cl < 4294967296 → vo < 4294967296 → am < 4294967296 →
      decodeDayChunk (encodeDayRecord dt op hi lo cl vo am) =
        { trade_date := pyStr dt, open_p := (op : ℚ) / 100, high := (hi : ℚ) / 100,
          low := (lo : ℚ) / 100, close := (cl : ℚ) / 100, vol := vo,
          amount := (am : ℚ) / 100 }) ∧
    (∀ dt cb : Nat, dt < 4294967296 → cb < 4294967296 →
      decodeChipChunk (encodeChipRecord dt cb) =
        { trade_date := pyStr dt, concentration_70 := decodeF32 cb }) := by
  constructor
  · intro dt op hi lo cl vo am hdt hop hhi hlo hcl hvo ham
    have e0 : u32at (encodeDayRecord dt op hi lo cl vo am) 0 =
        dt % 256 + 256 * (dt / 256 % 256) + 65536 * (dt / 65536 % 256) +
          16777216 * (dt / 16777216 % 256) := rfl
    have e4 : u32at (encodeDayRecord dt op hi lo cl vo am) 4 =
        op % 256 + 256 * (op / 256 % 256) + 65536 * (op / 65536 % 256) +
          16777216 * (op / 16777216 % 256) := rfl
    have e8 : u32at (encodeDayRecord dt op hi lo cl vo am) 8 =
        hi % 256 + 256 * (hi / 256 % 256) + 65536 * (hi / 65536 % 256) +
          16777216 * (hi / 16777216 % 256) := rfl
    have e12 : u32at (encodeDayRecord dt op hi lo cl vo am) 12 =
        lo % 256 + 256 * (lo / 256 % 256) + 65536 * (lo / 65536 % 256) +
          16777216 * (lo / 16777216 % 256) := rfl
    have e16 : u32at (encodeDayRecord dt op hi lo cl vo am) 16 =
        cl % 256 + 256 * (cl / 256 % 256) + 65536 * (cl / 65536 % 256) +
          16777216 * (cl / 16777216 % 256) := rfl
    have e20 : u32at (encodeDayRecord dt op hi lo cl vo am) 20 =
        vo % 256 + 256 * (vo / 256 % 256) + 65536 * (vo / 65536 % 256) +
          16777216 * (vo / 16777216 % 256) := rfl
    have e24 : u32at (encodeDayRecord dt op hi lo cl vo am) 24 =
        am % 256 + 256 * (am / 256 % 256) + 65536 * (am / 65536 % 256) +
          16777216 * (am / 16777216 % 256) := rfl
    have f0 : u32at (encodeDayRecord dt op hi lo cl vo am) 0 = dt := by omega
    have f4 : u32at (encodeDayRecord dt op hi lo cl vo am) 4 = op := by omega
    have f8 : u32at (encodeDayRecord dt op hi lo cl vo am) 8 = hi := by omega
    have f12 : u32at (encodeDayRecord dt op hi lo cl vo am) 12 = lo := by omega
    have f16 : u32at (encodeDayRecord dt op hi lo cl vo am) 16 = cl := by omega
    have f20 : u32at (encodeDayRecord dt op hi lo cl vo am) 20 = vo := by omega
    have f24 : u32at (encodeDayRecord dt op hi lo cl vo am) 24 = am := by omega
    simp [decodeDayChunk, f0, f4, f8, f12, f16, f20, f24]
  · intro dt cb hdt hcb
    have e0 : u32at (encodeChipRecord dt cb) 0 =
        dt % 256 + 256 * (dt / 256 % 256) + 65536 * (dt / 65536 % 256) +
          16777216 * (dt / 16777216 % 256) := rfl
    have e24 : u32at (encodeChipRecord dt cb) 24 =
        cb % 256 + 256 * (cb / 256 % 256) + 65536 * (cb / 65536 % 256) +
          16777216 * (cb / 16777216 % 256) := rfl
    have f0 : u32at (encodeChipRecord dt cb) 0 = dt := by omega
    have f24 : u32at (encodeChipRecord dt cb) 24 = cb := by omega
    simp [decodeChipChunk, f0, f24]

/-- Witness for C7 at a concrete record (the values of the first test
bar). -/
theorem C7_record_roundtrip_witness :
    decodeDayChunk (encodeDayRecord 20250101 1000 1010 990 1000 100 100000) =
      { trade_date := pyStr 20250101, open_p := (1000 : ℚ) / 100,
        high := (1010 : ℚ) / 100, low := (990 : ℚ) / 100,
        close := (1000 : ℚ) / 100, vol := 100,
        amount := (100000 : ℚ) / 100 } ∧
    decodeChipChunk (encodeChipRecord 20250102 1117126656) =
      { trade_date := pyStr 20250102, concentration_70 := decodeF32 1117126656 } :=
  ⟨C7_record_roundtrip.1 20250101 1000 1010 990 1000 100 100000
      (by decide) (by decide) (by decide) (by decide) (by decide) (by decide) (by decide),
    C7_record_roundtrip.2 20250102 1117126656 (by decide) (by decide)⟩

/-! ## Ordering behavior of the daily-bar decoder -/

/-- Counterexample to claim C2: on a file whose two records are dated
20250102 then 20250101, `parse_tdx_day_file` does not return the records
in input (file) order — line 71 sorts them by trade date. -/
theorem C2_input_order_counterexample :
    parse_tdx_day_file dayBytesW ≠ rawDayRecords dayBytesW := by
  intro h
  have hd := congrArg (List.map (fun r => r.trade_date)) h
  have hne : (parse_tdx_day_file dayBytesW).map (fun r => r.trade_date) ≠
      (rawDayRecords dayBytesW).map (fun r => r.trade_date) := by decide
  exact hne hd

/-- Claim C2 as amended: the daily-bar decoder does not de-duplicate but
does re-sort — it returns a permutation of the file-order records ordered
ascending by trade-date string. -/
theorem C2_decoder_sorts_and_keeps_records :
    ∀ bs : List Nat,
      (parse_tdx_day_file bs).Perm (rawDayRecords bs) ∧
      List.Sorted dateLe (parse_tdx_day_file bs) :=
  fun bs =>
    ⟨List.perm_insertionSort dateLe (rawDayRecords bs),
      List.sorted_insertionSort dateLe (rawDayRecords bs)⟩

/-! ## Moving-average properties -/

/-- Claim C5: for every series and period `P ≥ 1`, the moving-average
column is undefined at every index `i < P - 1` (that is, `i + 1 < P`) and
equals the arithmetic mean of the closes at indices `[i - P + 1, i]` at
every index `i ≥ P - 1`; in particular closes `[10, 10, 10, 10, 10]` with
period 5 yield MA = 10 at index 4 and undefined at indices 0-3. -/
theorem C5_moving_average :
    (∀ (closes : List ℚ) (P i : Nat), 1 ≤ P → i < closes.length →
      ((i + 1 < P → (calculate_ma closes P)[i]? = some none) ∧
        (P ≤ i + 1 →
          (calculate_ma closes P)[i]? =
            some (some ((((closes.take (i + 1)).drop (i + 1 - P)).sum) / P))))) ∧
    calculate_ma [10, 10, 10, 10, 10] 5 = [none, none, none, none, some 10] := by
  constructor
  · intro closes P i _ hi
    have hcell : (calculate_ma closes P)[i]? = some (rollingAt closes P i) := by
      simp [calculate_ma, List.getElem?_map, List.getElem?_range hi]
    constructor
    · intro hlt
      rw [hcell, rollingAt, if_neg (by omega)]
    · intro hge
      rw [hcell, rollingAt, if_pos hge]
  · have hrange : List.range 5 = [0, 1, 2, 3, 4] := rfl
    norm_num [calculate_ma, rollingAt, hrange]

/-- Witness for C5 on a 3-long series with period 2: undefined at index 0,
the mean of the last two closes at index 2. -/
theorem C5_moving_average_witness :
    (calculate_ma [10, 10, 10] 2)[0]? = some none ∧
    (calculate_ma [10, 10, 10] 2)[2]? =
      some (some (((([10, 10, 10] : List ℚ).take 3).drop 1).sum / 2)) :=
  ⟨(C5_moving_average.1 [10, 10, 10] 2 0 (by decide) (by decide)).1 (by decide),
    (C5_moving_average.1 [10, 10, 10] 2 2 (by decide) (by decide)).2 (by decide)⟩

/-! ## Box-breakout properties -/

/-- A flat bar used by the box-breakout examples. -/
def flatBar (d : List Nat) (c : ℚ) : DayRecord :=
  { trade_date := d, open_p := c, high := c, low := c, close := c, vol := 100, amount := 0 }

/-- Twenty flat bars at 10.00 (dates 101-120) followed by a target bar
(date 121) closing at 10.10. -/
def df21a : List DayRecord :=
  (List.range 20).map (fun i => flatBar (pyStr (101 + i)) 10) ++ [flatBar (pyStr 121) 10.1]

/-- The same window with a target close of 10.04. -/
def df21b : List DayRecord :=
  (List.range 20).map (fun i => flatBar (pyStr (101 + i)) 10) ++ [flatBar (pyStr 121) 10.04]

/-- Claim C4: whenever at least `windowDays ≥ 1` bars are dated strictly
before the target date, `box_upper` is the maximum close over the most
recent `windowDays` of them, the target breaks exactly when its close
exceeds `box_upper * 1.005`, and then the ratio is
`(close / box_upper - 1) * 100`, otherwise `0`; in particular a 20-bar
window of closes 10.00 with target close 10.10 gives upper 10.00, a break,
and ratio 1.00, while target close 10.04 gives no break and ratio 0. -/
theorem C4_box_breakout :
    (∀ (df : List DayRecord) (target : List Nat) (w : Nat) (trow : DayRecord) (u : ℚ),
      1 ≤ w →
      (tailN (df.filter (fun r => decide (r.trade_date < target))) w).length = w →
      firstRowWith df target = some trow →
      ((tailN (df.filter (fun r => decide (r.trade_date < target))) w).map
          (fun r => r.close)).max? = some u →
      (u ∈ (tailN (df.filter (fun r => decide (r.trade_date < target))) w).map
          (fun r => r.close) ∧
        (∀ x ∈ (tailN (df.filter (fun r => decide (r.trade_date < target))) w).map
            (fun r => r.close), x ≤ u) ∧
        check_box_break df target w =
          Except.ok (BoxBreakResult.triple (decide (u * 1.005 < trow.close)) u
            (if u * 1.005 < trow.close then (trow.close / u - 1) * 100 else 0)))) ∧
    check_box_break df21a (pyStr 121) 20 =
      Except.ok (BoxBreakResult.triple true 10 1) ∧
    check_box_break df21b (pyStr 121) 20 =
      Except.ok (BoxBreakResult.triple false 10 0) := by
  refine ⟨?_, ?_, ?_⟩
  · intro df target w trow u hw hlen htrow hmax
    refine ⟨List.max?_mem (fun a b => max_choice a b) hmax,
      fun x hx => (List.max?_le_iff (fun a b c => max_le_iff) hmax).mp le_rfl x hx, ?_⟩
    simp only [check_box_break, hlen, htrow, hmax]
    rw [if_neg (by omega)]
  · have hrange : List.range 20 = [0, 1, 2, 3, 4, 5, 6, 7, 8, 9, 10, 11, 12, 13, 14,
      15, 16, 17, 18, 19] := rfl
    norm_num +decide [check_box_break, tailN, firstRowWith, df21a, flatBar, hrange,
      pyStr, pyStrAux]
  · have hrange : List.range 20 = [0, 1, 2, 3, 4, 5, 6, 7, 8, 9, 10, 11, 12, 13, 14,
      15, 16, 17, 18, 19] := rfl
    norm_num +decide [check_box_break, tailN, firstRowWith, df21b, flatBar, hrange,
      pyStr, pyStrAux]

/-- Three flat bars for the box witness: dates 101, 102 (closes 10.00) and
the target 103 (close 10.10). -/
def df3w : List DayRecord :=
  [flatBar (pyStr 101) 10, flatBar (pyStr 102) 10, flatBar (pyStr 103) 10.1]

/-- Witness for the general part of C4 on a 2-day window. -/
theorem C4_box_breakout_witness :
    (10 : ℚ) ∈ (tailN (df3w.filter (fun r => decide (r.trade_date < pyStr 103))) 2).map
        (fun r => r.close) ∧
    (∀ x ∈ (tailN (df3w.filter (fun r => decide (r.trade_date < pyStr 103))) 2).map
        (fun r => r.close), x ≤ (10 : ℚ)) ∧
    check_box_break df3w (pyStr 103) 2 =
      Except.ok (BoxBreakResult.triple
        (decide ((10 : ℚ) * 1.005 < (flatBar (pyStr 103) 10.1).close)) 10
        (if (10 : ℚ) * 1.005 < (flatBar (pyStr 103) 10.1).close then
          ((flatBar (pyStr 103) 10.1).close / 10 - 1) * 100 else 0)) :=
  C4_box_breakout.1 df3w (pyStr 103) 2 (flatBar (pyStr 103) 10.1) 10
    (by decide) (by decide) (by rfl) (by decide)

/-! ## Evaluated form of the concrete day files -/

/-- The decoded first bar of `dayBytesX`. -/
def recX1 : DayRecord :=
  { trade_date := [2, 0, 2, 5, 0, 1, 0, 1], open_p := 10, high := 10.1, low := 9.9,
    close := 10, vol := 100, amount := 1000 }

/-- The decoded second bar of `dayBytesX`. -/
def recX2 : DayRecord :=
  { trade_date := [2, 0, 2, 5, 0, 1, 0, 2], open_p := 10.1, high := 10.2, low := 10,
    close := 10.1, vol := 200, amount := 2000 }

/-- The decoded second bar of `dayBytesY` (flat volume). -/
def recY2 : DayRecord :=
  { trade_date := [2, 0, 2, 5, 0, 1, 0, 2], open_p := 10.1, high := 10.2, low := 10,
    close := 10.1, vol := 100, amount := 1000 }

/-- The decoded third bar of `dayBytesZ`. -/
def recZ3 : DayRecord :=
  { trade_date := [2, 0, 2, 5, 0, 1, 0, 3], open_p := 10.2, high := 10.3, low := 10.1,
    close := 10.2, vol := 300, amount := 3000 }

/-- Evaluation of the first concrete day file. -/
theorem parseX_eval : parse_tdx_day_file dayBytesX = [recX1, recX2] := by
  norm_num +decide [parse_tdx_day_file, rawDayRecords, readChunks, readChunksAux,
    dayBytesX, encodeDayRecord, u32le, reserved4, decodeDayChunk, u32at, byteAt,
    pyStr, pyStrAux, List.insertionSort, List.orderedInsert, dateLe, recX1, recX2]

/-- Evaluation of the flat-volume day file. -/
theorem parseY_eval : parse_tdx_day_file dayBytesY = [recX1, recY2] := by
  norm_num +decide [parse_tdx_day_file, rawDayRecords, readChunks, readChunksAux,
    dayBytesY, encodeDayRecord, u32le, reserved4, decodeDayChunk, u32at, byteAt,
    pyStr, pyStrAux, List.insertionSort, List.orderedInsert, dateLe, recX1, recY2]

/-- Evaluation of the three-bar day file. -/
theorem parseZ_eval : parse_tdx_day_file dayBytesZ = [recX1, recX2, recZ3] := by
  norm_num +decide [parse_tdx_day_file, rawDayRecords, readChunks, readChunksAux,
    dayBytesZ, encodeDayRecord, u32le, reserved4, decodeDayChunk, u32at, byteAt,
    pyStr, pyStrAux, List.insertionSort, List.orderedInsert, dateLe, recX1, recX2, recZ3]

/-- On `inpX` the loop body reaches the box stage (every earlier stage
passes) and aborts with the unpacking error. -/
theorem processX_eval : processInstrument cfgX inpX = Except.error "ValueError" := by
  norm_num +decide [processInstrument, inpX, cfgX, parseX_eval, get_prev_trade_date,
    List.findIdx?, recX1, recX2, pyStr, pyStrAux, rollingAt, firstRowWith,
    volumeGrowthPass, turnoverPass, turnover_rate, profX, chipPred, parse_tdx_chip_data,
    chipRecords, readChunks, readChunksAux, chipBytesX, encodeChipRecord, u32le,
    reserved20, decodeChipChunk, decodeF32, u32at, byteAt, check_box_break, tailN]

/-! ## The insufficient-window run abort -/

/-- Claim C1 fails on the code (code bug): on an instrument whose series
has fewer than `windowDays` bars dated strictly before the target (here 1
bar against a 2-day window) and which passes every earlier stage,
`check_box_break` returns its insufficient-data 2-tuple, the 3-name
unpacking at line 238 raises `ValueError`, and the exception aborts the
whole scan instead of excluding the instrument — contradicting both the
claim and the intent documented in the function itself. -/
theorem C1_insufficient_window_aborts_scan :
    stock_selection_tdx_auto (some [inpX]) cfgX = Except.error "ValueError" ∧
    check_box_break (parse_tdx_day_file dayBytesX) cfgX.target_date cfgX.box_days =
      Except.ok (BoxBreakResult.pair false 0) := by
  constructor
  · simp only [stock_selection_tdx_auto, runScan, processX_eval]
    rw [if_pos (by norm_num [inpX, profX, cfgX])]
  · norm_num +decide [parseX_eval, cfgX, check_box_break, tailN, recX1, recX2,
      pyStr, pyStrAux]

/-! ## Turnover-rate formula -/

/-- Claim C8: the turnover rate is the literal formula
`(targetVolume * 100) / circulatingShares` (volume in lots, share count in
10,000-share units) with no additional unit conversion, and that is
exactly the quantity the turnover stage compares against the threshold. -/
theorem C8_turnover_literal :
    (∀ (tv : Nat) (s : ℚ), turnover_rate tv s = ((tv : ℚ) * 100) / s) ∧
    (∀ (cfg : Config) (inp : InstrInput) (bs : List Nat) (trow : DayRecord),
      inp.dayFile = some bs →
      firstRowWith (parse_tdx_day_file bs) cfg.target_date = some trow →
      inp.profile.circulating_share ≠ 0 →
      stage_turnover cfg inp =
        Except.ok (decide (¬ (((trow.vol : ℚ) * 100) / inp.profile.circulating_share <
          cfg.turnover_threshold)))) := by
  constructor
  · intro tv s
    rfl
  · intro cfg inp bs trow hday htrow hs
    simp only [stage_turnover, getDayDf, hday, htrow]
    rw [turnoverPass, if_neg hs, turnover_rate]

/-- Witness for C8 on the concrete instrument `inpX`. -/
theorem C8_turnover_literal_witness :
    stage_turnover cfgX inpX =
      Except.ok (decide (¬ (((recX2.vol : ℚ) * 100) / inpX.profile.circulating_share <
        cfgX.turnover_threshold))) :=
  C8_turnover_literal.2 cfgX inpX dayBytesX recX2 rfl
    (by rw [parseX_eval]; rfl) (by norm_num [inpX, profX])

/-! ## Concentration-stage properties -/

/-- Claim C10: a concentration sample that is exactly 0.0 at the target
date is excluded regardless of the configured threshold — the truthiness
test `not chip_concentration` fires before the threshold comparison, so
the 0.0 sample behaves exactly like an absent one. -/
theorem C10_zero_concentration_excluded :
    ∀ (thr : ℚ) (bs : List Nat) (d : List Nat),
      parse_tdx_chip_data (some bs) d = some (F32Val.finite 0) →
      chipPred thr (parse_tdx_chip_data (some bs) d) = false ∧
      chipPred thr none = false := by
  intro thr bs d h
  rw [h]
  exact ⟨by simp [chipPred], rfl⟩

/-- Chip file holding one sample at date 20250102 whose float32 bit
pattern is 0 (the value 0.0). -/
def chipBytes0 : List Nat := encodeChipRecord 20250102 0

/-- Witness for C10: the 0.0 sample is excluded even at threshold -1,
which the comparison alone would let pass. -/
theorem C10_zero_concentration_excluded_witness :
    chipPred (-1) (parse_tdx_chip_data (some chipBytes0) (pyStr 20250102)) = false ∧
    chipPred (-1) none = false :=
  C10_zero_concentration_excluded (-1) chipBytes0 (pyStr 20250102)
    (by norm_num [parse_tdx_chip_data, chipRecords, readChunks, readChunksAux,
      chipBytes0, encodeChipRecord, u32le, reserved20, decodeChipChunk, decodeF32,
      u32at, byteAt, pyStr, pyStrAux])

/-- A date occurring in a record list makes the date search succeed. -/
theorem findIdx_date_isSome {df : List DayRecord} {d : List Nat}
    (h : d ∈ df.map (fun r => r.trade_date)) :
    (List.findIdx? (fun r => r.trade_date = d) df).isSome := by
  obtain ⟨r, hr, hrd⟩ := List.mem_map.mp h
  by_contra hn
  rw [Option.not_isSome_iff_eq_none, List.findIdx?_eq_none_iff] at hn
  have hfalse := hn r hr
  simp [hrd] at hfalse

/-- A date occurring in a record list makes `iloc[0]` on the selection
succeed. -/
theorem firstRow_isSome {df : List DayRecord} {d : List Nat}
    (h : d ∈ df.map (fun r => r.trade_date)) : (firstRowWith df d).isSome := by
  obtain ⟨r, hr, hrd⟩ := List.mem_map.mp h
  have hmem : r ∈ df.filter (fun r => r.trade_date = d) := by
    rw [List.mem_filter]
    exact ⟨hr, by simp [hrd]⟩
  rw [firstRowWith]
  cases hfil : df.filter (fun r => r.trade_date = d) with
  | nil => rw [hfil] at hmem; cases hmem
  | cons a l => simp

/-- Claim C9: a missing concentration file behaves exactly like a missing
sample for the target date — the lookup yields `None` in both cases, the
stage test excludes on `None` without raising, and an instrument with no
chip file can never abort the loop body: it is excluded at some stage and
the run continues. -/
theorem C9_missing_concentration_file :
    (∀ d, parse_tdx_chip_data none d = none) ∧
    (∀ (bs : List Nat) (d : List Nat),
      (∀ r ∈ chipRecords bs, r.trade_date ≠ d) →
      parse_tdx_chip_data (some bs) d = none) ∧
    (∀ thr : ℚ, chipPred thr none = false) ∧
    (∀ (cfg : Config) (inp : InstrInput), inp.chipFile = none →
      processInstrument cfg inp = Except.ok none) := by
  refine ⟨fun d => rfl, ?_, fun thr => rfl, ?_⟩
  · intro bs d h
    have hfil : (chipRecords bs).filter (fun r => r.trade_date = d) = [] :=
      List.filter_eq_nil_iff.mpr (by intro r hr; simpa using h r hr)
    simp only [parse_tdx_chip_data, hfil]
  · intro cfg inp hchip
    obtain ⟨prof, dayF, chipF⟩ := inp
    simp only at hchip
    subst hchip
    cases dayF with
    | none => rfl
    | some bs =>
      simp only [processInstrument]
      by_cases h1 : cfg.target_date ∈ (parse_tdx_day_file bs).map (fun r => r.trade_date)
      · rw [if_pos h1]
        cases h2 : get_prev_trade_date (parse_tdx_day_file bs) cfg.target_date with
        | none => simp
        | some prev =>
          by_cases h3 : prev ∈ (parse_tdx_day_file bs).map (fun r => r.trade_date)
          · obtain ⟨tIdx, h4⟩ := Option.isSome_iff_exists.mp (findIdx_date_isSome h1)
            obtain ⟨trow, h6⟩ := Option.isSome_iff_exists.mp (firstRow_isSome h1)
            obtain ⟨prow, h7⟩ := Option.isSome_iff_exists.mp (firstRow_isSome h3)
            simp only [if_pos h3, h4, h6, h7]
            cases h5 : cfg.ma_list.any
                (fun p => (rollingAt ((parse_tdx_day_file bs).map (fun r => r.close)) p
                  tIdx).isNone) with
            | true => simp [h5]
            | false =>
              cases h8 : volumeGrowthPass trow.vol prow.vol cfg.growth_threshold with
              | false => simp [h5, h8]
              | true =>
                cases h9 : turnoverPass trow.vol prof.circulating_share
                    cfg.turnover_threshold with
                | false => simp [h5, h8, h9]
                | true => simp [h5, h8, h9, parse_tdx_chip_data, chipPred]
          · simp only [if_neg h3]
      · rw [if_neg h1]

/-- Witness for C9: the chip file of `chipBytesX` has no sample for
20250101, and the chip-less instrument `inpY` is excluded, not fatal. -/
theorem C9_missing_concentration_file_witness :
    parse_tdx_chip_data (some chipBytesX) (pyStr 20250101) = none ∧
    processInstrument cfgX inpY = Except.ok none :=
  ⟨C9_missing_concentration_file.2.1 chipBytesX (pyStr 20250101) (by decide),
    C9_missing_concentration_file.2.2.2 cfgX inpY rfl⟩

/-! ## Stage-permutation properties -/

/-- When every listed stage evaluates without raising, running the chain
yields membership exactly when every stage passes. -/
theorem runChain_all_defined (cfg : Config) (inp : InstrInput) :
    ∀ (order : List (Fin 8)),
      (∀ i ∈ order, ∃ b, stageFn i cfg inp = Except.ok b) →
      runChain order cfg inp =
        Except.ok (decide (∀ i ∈ order, stageFn i cfg inp = Except.ok true)) := by
  intro order
  induction order with
  | nil => intro _; simp [runChain]
  | cons s rest ih =>
    intro h
    obtain ⟨b, hb⟩ := h s (List.mem_cons_self s rest)
    cases b with
    | false =>
      have hne : ¬ (∀ i ∈ s :: rest, stageFn i cfg inp = Except.ok true) := by
        intro hall
        have hs := hall s (List.mem_cons_self s rest)
        rw [hb] at hs
        simp at hs
      simp [runChain, hb, hne]
    | true =>
      have hrest := ih (fun i hi => h i (List.mem_cons_of_mem s hi))
      have hiff : (∀ i ∈ s :: rest, stageFn i cfg inp = Except.ok true) ↔
          (∀ i ∈ rest, stageFn i cfg inp = Except.ok true) := by
        constructor
        · intro hall i hi
          exact hall i (List.mem_cons_of_mem s hi)
        · intro hall i hi
          rcases List.mem_cons.mp hi with hh | hh
          · rw [hh]
            exact hb
          · exact hall i hh
      simp [runChain, hb, hrest, hiff]

/-- Claim C3 as amended: a permutation of the eight stages yields the same
final membership whenever every stage evaluates without raising on the
instrument; as implemented the stages are partial (the box stage can raise
through the 2-tuple unpacking), and then a permutation can turn an
excluded instrument into a run-aborting error, so the unconditional claim
fails (see the counterexample). -/
theorem C3_permutation_invariance_when_defined :
    ∀ (order : List (Fin 8)), order.Perm specifiedOrder →
      ∀ (cfg : Config) (inp : InstrInput),
        (∀ i : Fin 8, ∃ b, stageFn i cfg inp = Except.ok b) →
        runChain order cfg inp = runChain specifiedOrder cfg inp := by
  intro order hperm cfg inp hok
  rw [runChain_all_defined cfg inp order (fun i _ => hok i),
    runChain_all_defined cfg inp specifiedOrder (fun i _ => hok i)]
  have hiff : (∀ i ∈ order, stageFn i cfg inp = Except.ok true) ↔
      (∀ i ∈ specifiedOrder, stageFn i cfg inp = Except.ok true) := by
    constructor
    · intro h i hi
      exact h i (hperm.mem_iff.mpr hi)
    · intro h i hi
      exact h i (hperm.mem_iff.mp hi)
  simp [hiff]

/-- On the flat-volume instrument, running the box stage first aborts:
the insufficient window produces the 2-tuple and the unpacking raises. -/
theorem chainY_box_first :
    runChain [6, 0, 1, 2, 3, 4, 5, 7] cfgX inpY = Except.error "ValueError" := by
  have h6 : stageFn 6 cfgX inpY = Except.error "ValueError" := by
    have hsf : stageFn 6 = stage_box := rfl
    rw [hsf]
    norm_num +decide [stage_box, getDayDf, inpY, parseY_eval, check_box_break, tailN,
      recX1, recY2, cfgX, pyStr, pyStrAux]
  simp [runChain, h6]

/-- On the flat-volume instrument the specified order excludes it at the
volume-growth stage: membership is settled as a plain exclusion. -/
theorem chainY_specified :
    runChain specifiedOrder cfgX inpY = Except.ok false := by
  have h0 : stageFn 0 cfgX inpY = Except.ok true := by
    have hsf : stageFn 0 = stage_cap := rfl
    rw [hsf]
    norm_num [stage_cap, inpY, profX, cfgX]
  have h1 : stageFn 1 cfgX inpY = Except.ok true := by
    have hsf : stageFn 1 = stage_series := rfl
    rw [hsf]
    norm_num +decide [stage_series, inpY, parseY_eval, get_prev_trade_date,
      List.findIdx?, recX1, recY2, cfgX, pyStr, pyStrAux]
  have h2 : stageFn 2 cfgX inpY = Except.ok true := by
    have hsf : stageFn 2 = stage_ma_complete := rfl
    rw [hsf]
    norm_num +decide [stage_ma_complete, getDayDf, inpY, parseY_eval, List.findIdx?,
      recX1, recY2, cfgX, pyStr, pyStrAux, rollingAt]
  have h3 : stageFn 3 cfgX inpY = Except.ok false := by
    have hsf : stageFn 3 = stage_growth := rfl
    rw [hsf]
    norm_num +decide [stage_growth, getDayDf, inpY, parseY_eval, firstRowWith,
      get_prev_trade_date, List.findIdx?, recX1, recY2, cfgX, pyStr, pyStrAux,
      volumeGrowthPass]
  simp [runChain, specifiedOrder, h0, h1, h2, h3]

/-- Counterexample to claim C3: applying the eight stages with the box
stage first (a permutation of the specified order) does not yield the same
final membership — on the flat-volume instrument the specified order
settles membership (excluded), while the permuted order aborts the run. -/
theorem C3_stage_permutation_counterexample :
    ¬ (∀ (order : List (Fin 8)), order.Perm specifiedOrder →
        ∀ (cfg : Config) (inp : InstrInput),
          runChain order cfg inp = runChain specifiedOrder cfg inp) := by
  intro h
  have heq := h [6, 0, 1, 2, 3, 4, 5, 7] (by decide) cfgX inpY
  rw [chainY_box_first, chainY_specified] at heq
  exact absurd heq (by simp)

/-- Every stage evaluates without raising on the three-bar instrument. -/
theorem stagesZ_defined : ∀ i : Fin 8, ∃ b, stageFn i cfgZ inpZ = Except.ok b := by
  have h0 : stageFn 0 cfgZ inpZ = Except.ok true := by
    have hsf : stageFn 0 = stage_cap := rfl
    rw [hsf]
    norm_num [stage_cap, inpZ, profX, cfgZ]
  have h1 : stageFn 1 cfgZ inpZ = Except.ok true := by
    have hsf : stageFn 1 = stage_series := rfl
    rw [hsf]
    norm_num +decide [stage_series, inpZ, parseZ_eval, get_prev_trade_date,
      List.findIdx?, recX1, recX2, recZ3, cfgZ, pyStr, pyStrAux]
  have h2 : stageFn 2 cfgZ inpZ = Except.ok true := by
    have hsf : stageFn 2 = stage_ma_complete := rfl
    rw [hsf]
    norm_num +decide [stage_ma_complete, getDayDf, inpZ, parseZ_eval, List.findIdx?,
      recX1, recX2, recZ3, cfgZ, pyStr, pyStrAux, rollingAt]
  have h3 : stageFn 3 cfgZ inpZ = Except.ok true := by
    have hsf : stageFn 3 = stage_growth := rfl
    rw [hsf]
    norm_num +decide [stage_growth, getDayDf, inpZ, parseZ_eval, firstRowWith,
      get_prev_trade_date, List.findIdx?, recX1, recX2, recZ3, cfgZ, pyStr, pyStrAux,
      volumeGrowthPass]
  have h4 : stageFn 4 cfgZ inpZ = Except.ok true := by
    have hsf : stageFn 4 = stage_turnover := rfl
    rw [hsf]
    norm_num +decide [stage_turnover, getDayDf, inpZ, parseZ_eval, firstRowWith,
      recX1, recX2, recZ3, cfgZ, pyStr, pyStrAux, turnoverPass, turnover_rate, profX]
  have h5 : stageFn 5 cfgZ inpZ = Except.ok false := by
    have hsf : stageFn 5 = stage_chip := rfl
    rw [hsf]
    norm_num [stage_chip, inpZ, parse_tdx_chip_data, chipPred]
  have h6 : stageFn 6 cfgZ inpZ = Except.ok true := by
    have hsf : stageFn 6 = stage_box := rfl
    rw [hsf]
    norm_num +decide [stage_box, getDayDf, inpZ, parseZ_eval, check_box_break, tailN,
      firstRowWith, recX1, recX2, recZ3, cfgZ, pyStr, pyStrAux]
  have h7 : stageFn 7 cfgZ inpZ = Except.ok false := by
    have hsf : stageFn 7 = stage_ma_break := rfl
    have hfi : List.findIdx? (fun r => r.trade_date = cfgZ.target_date)
        [recX1, recX2, recZ3] = some 2 := by rfl
    have hge : ([recX1, recX2, recZ3] : List DayRecord)[2]? = some recZ3 := rfl
    have hmb : check_ma_break [recX1, recX2, recZ3] cfgZ.target_date cfgZ.ma_list
        cfgZ.break_ma_type = false := by
      simp only [check_ma_break, hfi, hge]
      norm_num [cfgZ, gtOptMa, rollingAt, recX1, recX2, recZ3]
    rw [hsf]
    simp only [stage_ma_break, getDayDf, inpZ, parseZ_eval, hmb]
  intro i
  fin_cases i
  · exact ⟨true, h0⟩
  · exact ⟨true, h1⟩
  · exact ⟨true, h2⟩
  · exact ⟨true, h3⟩
  · exact ⟨true, h4⟩
  · exact ⟨false, h5⟩
  · exact ⟨true, h6⟩
  · exact ⟨false, h7⟩

/-- Witness for the amended C3 at the fully reversed order on the
three-bar instrument. -/
theorem C3_permutation_invariance_witness :
    runChain [7, 6, 5, 4, 3, 2, 1, 0] cfgZ inpZ = runChain specifiedOrder cfgZ inpZ :=
  C3_permutation_invariance_when_defined [7, 6, 5, 4, 3, 2, 1, 0] (by decide)
    cfgZ inpZ stagesZ_defined
